import Mathlib

/-
Shallow embedding of the imgui_sugar RAII scope-guard library.

The source consists of two alternative single-header implementations:
`sugar::guard_bool<AlwaysCallEnd>` / `sugar::guard_void<Args...>` with the
`_SUGAR_SCOPED_BOOL`, `_SUGAR_SCOPED_VOID_N` and `_SUGAR_PARENT_SCOPED_VOID_N`
macros, and `ImGuiSugar::BooleanGuard<AlwaysCallEnd>` with the
`IMGUI_SUGAR_SCOPED_BOOL`, `IMGUI_SUGAR_SCOPED_VOID_N` (via `IMGUI_SUGAR_ES`)
and `IMGUI_SUGAR_PARENT_SCOPED_VOID_N` macros.

The embedding models client code using the DSL as a small statement language
and gives it a call-trace semantics that follows C++ object-lifetime rules:
a guard declared in the condition of an `if` is destroyed when control leaves
the `if` statement on any path (normal completion, early `return`, thrown
exception), and a guard declared as a plain block-local variable is destroyed
when the enclosing block closes, in reverse declaration order, also during
stack unwinding.
-/

namespace ImGuiSugarModel

/-- Observable events of a run: an invocation of an `ImGui::Begin*`/`Push*`
function (`beginCall`), one execution of an opaque client statement inside a
guarded body (`bodyStep`), and an invocation of an `ImGui::End*`/`Pop*`
function (`endCall`). The `Nat` identifies the DSL construct or statement the
event belongs to. -/
inductive Event where
  | beginCall : Nat → Event
  | bodyStep : Nat → Event
  | endCall : Nat → Event
deriving DecidableEq, Repr

/-- How control leaves a guarded body: normal completion, an early `return`
from the enclosing function, or a thrown exception. -/
inductive Outcome where
  | normal
  | earlyReturn
  | thrown
deriving DecidableEq, Repr

/-- Destructor of `sugar::guard_bool<AlwaysCallEnd>` (identical in
`ImGuiSugar::BooleanGuard<AlwaysCallEnd>`):
`~guard_bool() noexcept { if (AlwaysCallEnd || _state) { _end(); } }`.
Returns the list of end-function calls the destructor performs, `n`
identifying the bound end-function. -/
def guardBoolDestructTrace (alwaysCallEnd st : Bool) (n : Nat) : List Event :=
  if alwaysCallEnd || st then [Event.endCall n] else []

/-- Implicit boolean conversion of `guard_bool`:
`operator bool() const noexcept { return _state; }`. -/
def guardBoolOperatorBool (st : Bool) : Bool := st

/-- Destructor of `sugar::guard_void`: `~guard_void() noexcept { _end(); }` —
unconditionally one end-call. -/
def guardVoidDestructTrace (n : Nat) : List Event := [Event.endCall n]

/-- State of `sugar::guard_void<Args...>` after construction: it stores only
the end-function. Effects are modelled over an explicit state `σ`; the stored
end-function is a state transformer. -/
structure guard_void (σ : Type) where
  endFn : σ → σ

/-- Constructor of `guard_void`:
`guard_void(begin_fn_t begin, end_fn_ptr end, Args&&... args) noexcept
   : _end(end) { begin(std::forward<Args>(args)...); }`.
The begin-function is modelled as `α → σ → β × σ`: applied once to the
forwarded arguments, its returned value (the `β` component) is discarded and
only its effect on the state is kept. -/
def guard_void.construct {α β σ : Type} (beginFn : α → σ → β × σ) (endFn : σ → σ)
    (args : α) (s : σ) : guard_void σ × σ :=
  ({ endFn := endFn }, (beginFn args s).2)

/-- Implicit boolean conversion of `guard_void`:
`constexpr operator bool() const noexcept { return true; }`. -/
def guard_void.operatorBool {σ : Type} (_g : guard_void σ) : Bool := true

/-- Destructor of `guard_void`: applies the stored end-function once. -/
def guard_void.destruct {σ : Type} (g : guard_void σ) (s : σ) : σ := g.endFn s

/-- Client statements using the DSL:
`atom n` is an opaque statement (emits `bodyStep n`); `raiseExc` throws an
exception; `retStmt` returns early from the enclosing function; `seq` is
sequencing; `block` is a compound statement `{ ... }`;
`scopedBool n always st body` is `_SUGAR_SCOPED_BOOL(BEGIN, END, always, ...)
{ body }` where the begin-call returns `st`;
`scopedVoid n body` is `_SUGAR_SCOPED_VOID_N/_0(BEGIN, END, ...) { body }`;
`setVoid n` is `_SUGAR_PARENT_SCOPED_VOID_N(BEGIN, END, ...)`, a plain
block-local guard declaration. -/
inductive Stmt where
  | atom : Nat → Stmt
  | raiseExc : Stmt
  | retStmt : Stmt
  | seq : Stmt → Stmt → Stmt
  | block : Stmt → Stmt
  | scopedBool : Nat → Bool → Bool → Stmt → Stmt
  | scopedVoid : Nat → Stmt → Stmt
  | setVoid : Nat → Stmt
deriving DecidableEq, Repr

/-- Trace semantics. `run s = (trace, outcome, pending)`: `trace` is the
emitted event list, `outcome` says how control leaves `s`, and `pending` lists
the parent-scoped guards declared by `s` at the current block level that are
still alive, most recently declared first. The enclosing block invokes their
end-functions when it closes — in that (LIFO) order, on every outcome,
matching C++ destruction of block-locals including during stack unwinding.
A self-scoped construct destroys its guard when control leaves the `if`
statement: after the trace of the body (and after the releases of parent-scoped
guards declared inside the body, which die first), on every outcome. -/
def run : Stmt → List Event × Outcome × List Nat
  | .atom n => ([Event.bodyStep n], Outcome.normal, [])
  | .raiseExc => ([], Outcome.thrown, [])
  | .retStmt => ([], Outcome.earlyReturn, [])
  | .seq a b =>
    match run a with
    | (ta, Outcome.normal, pa) =>
      match run b with
      | (tb, ob, pb) => (ta ++ tb, ob, pb ++ pa)
    | (ta, oa, pa) => (ta, oa, pa)
  | .block s =>
    match run s with
    | (t, o, p) => (t ++ p.map Event.endCall, o, [])
  | .scopedBool n always st body =>
    if st then
      match run body with
      | (tb, ob, pb) =>
        (Event.beginCall n :: ((tb ++ pb.map Event.endCall) ++ guardBoolDestructTrace always st n),
          ob, [])
    else
      (Event.beginCall n :: guardBoolDestructTrace always st n, Outcome.normal, [])
  | .scopedVoid n body =>
    match run body with
    | (tb, ob, pb) =>
      (Event.beginCall n :: ((tb ++ pb.map Event.endCall) ++ guardVoidDestructTrace n), ob, [])
  | .setVoid n => ([Event.beginCall n], Outcome.normal, [n])

/-- Expansion, in the second implementation, of a void self-scoped entry,
`IMGUI_SUGAR_SCOPED_VOID_N(BEGIN, END, ...)`:
`if (const ImGuiSugar::BooleanGuard<true> g = {IMGUI_SUGAR_ES(ImGui::BEGIN, ...), &ImGui::END})`
where `IMGUI_SUGAR_ES` is a lambda that invokes the begin-function and returns
`true`. The begin-call event is emitted while evaluating the state expression;
the guard then behaves as a `BooleanGuard` with `AlwaysCallEnd = true` and
`state = true`. -/
def runScopedVoidES (n : Nat) (body : Stmt) : List Event × Outcome × List Nat :=
  let st := true
  if st then
    match run body with
    | (tb, ob, pb) =>
      (Event.beginCall n :: ((tb ++ pb.map Event.endCall) ++ guardBoolDestructTrace true st n),
        ob, [])
  else
    (Event.beginCall n :: guardBoolDestructTrace true st n, Outcome.normal, [])

/-- Number of end-calls to the end-function bound by construct `n` in a trace. -/
def countEnd (n : Nat) (t : List Event) : Nat := t.count (Event.endCall n)

/-- Number of executions of the opaque body statement `n` in a trace. -/
def countBody (n : Nat) (t : List Event) : Nat := t.count (Event.bodyStep n)

/-- Number of begin-calls of construct `n` in a trace. -/
def countBegin (n : Nat) (t : List Event) : Nat := t.count (Event.beginCall n)

/-- The facts about a C++ class declaration that decide, under the C++11
implicit special-member rules, whether instances can be copied or moved. -/
structure CppClassDecl where
  userDeclaredDtor : Bool
  userDeclaredCopyCtor : Bool
  userDeclaredCopyAssign : Bool
  userDeclaredMoveCtor : Bool
  userDeclaredMoveAssign : Bool
  copyCtorDeletedExplicitly : Bool
  allMembersCopyConstructible : Bool
deriving DecidableEq, Repr

/-- A move constructor is implicitly declared only when the class has no
user-declared copy operation, move operation, or destructor
(C++11 special-member rules). -/
def hasImplicitMoveCtor (c : CppClassDecl) : Bool :=
  !c.userDeclaredCopyCtor && !c.userDeclaredCopyAssign && !c.userDeclaredMoveCtor &&
    !c.userDeclaredMoveAssign && !c.userDeclaredDtor

/-- Copy-constructibility: a user-declared, non-deleted copy constructor, or
the implicitly-declared one — which is still provided (merely deprecated) when
the destructor is user-declared — and is non-deleted when every member is
copy-constructible. -/
def copyConstructible (c : CppClassDecl) : Bool :=
  if c.userDeclaredCopyCtor then !c.copyCtorDeletedExplicitly
  else c.allMembersCopyConstructible

/-- An expression of the class type can be move-constructed from: either an
implicit move constructor exists, or overload resolution for an rvalue falls
back to a usable copy constructor. -/
def moveConstructibleViaFallback (c : CppClassDecl) : Bool :=
  hasImplicitMoveCtor c || copyConstructible c

/-- Declaration shape of `sugar::guard_bool<AlwaysCallEnd>`: user-declared
constructor and destructor, no copy or move operation declared or deleted;
members are a `bool` and a function pointer, both copy-constructible. -/
def sugarGuardBoolDecl : CppClassDecl :=
  { userDeclaredDtor := true
    userDeclaredCopyCtor := false
    userDeclaredCopyAssign := false
    userDeclaredMoveCtor := false
    userDeclaredMoveAssign := false
    copyCtorDeletedExplicitly := false
    allMembersCopyConstructible := true }

/-- Declaration shape of `sugar::guard_void<Args...>`: user-declared
constructor and destructor, no copy or move operation declared or deleted;
the only member is a function pointer. -/
def sugarGuardVoidDecl : CppClassDecl :=
  { userDeclaredDtor := true
    userDeclaredCopyCtor := false
    userDeclaredCopyAssign := false
    userDeclaredMoveCtor := false
    userDeclaredMoveAssign := false
    copyCtorDeletedExplicitly := false
    allMembersCopyConstructible := true }

/-- Declaration shape of `ImGuiSugar::BooleanGuard<AlwaysCallEnd>`: like
`sugar::guard_bool` but with `const` members — `const` members are still
copy-constructible (copy-assignment, not modelled here, is what they delete). -/
def booleanGuardDecl : CppClassDecl :=
  { userDeclaredDtor := true
    userDeclaredCopyCtor := false
    userDeclaredCopyAssign := false
    userDeclaredMoveCtor := false
    userDeclaredMoveAssign := false
    copyCtorDeletedExplicitly := false
    allMembersCopyConstructible := true }

/-- C++ types that occur as the trailing argument of `set_StyleColor` /
`set_StyleVar` call sites, plus the parameter types the two overloads take. -/
inductive CppType where
  | tBool
  | tChar
  | tInt
  | tUnsignedInt
  | tLong
  | tImU32
  | tFloat
  | tDouble
  | tImVec4
  | tImVec2
  | tConstImVec4Ref
  | tConstImVec2Ref
deriving DecidableEq, Repr

/-- Trait `std::is_integral` on the modelled types (`ImU32` is `unsigned int`). -/
def is_integral : CppType → Bool
  | .tBool => true
  | .tChar => true
  | .tInt => true
  | .tUnsignedInt => true
  | .tLong => true
  | .tImU32 => true
  | _ => false

/-- Trait `std::is_floating_point` on the modelled types. -/
def is_floating_point : CppType → Bool
  | .tFloat => true
  | .tDouble => true
  | _ => false

/-- Trait `std::is_arithmetic`: integral or floating point. -/
def is_arithmetic (t : CppType) : Bool := is_integral t || is_floating_point t

/-- Alias `std::conditional<B, T, F>::type`. -/
def conditional (b : Bool) (tTrue tFalse : CppType) : CppType :=
  if b then tTrue else tFalse

/-- Second type argument of the `guard_void` declared by `set_StyleColor`:
`std::conditional<std::is_integral<decltype(__VA_ARGS__)>::value, ImU32, const ImVec4&>::type`,
where `t` is the static type of the trailing argument. The selection depends
only on `t`, never on a runtime value. -/
def setStyleColorArgType (t : CppType) : CppType :=
  conditional (is_integral t) CppType.tImU32 CppType.tConstImVec4Ref

/-- Second type argument of the `guard_void` declared by `set_StyleVar`:
`std::conditional<std::is_arithmetic<decltype(__VA_ARGS__)>::value, float, const ImVec2&>::type`. -/
def setStyleVarArgType (t : CppType) : CppType :=
  conditional (is_arithmetic t) CppType.tFloat CppType.tConstImVec2Ref

/-- External collaborator (Dear ImGui) style-color stack:
`ImGui::PushStyleColor` pushes one entry. -/
def ImGuiPushStyleColor {α : Type} (c : α) (stack : List α) : List α := c :: stack

/-- External collaborator (Dear ImGui): `ImGui::PopStyleColor(count)` pops
`count` entries off the style-color stack. -/
def ImGuiPopStyleColor {α : Type} (count : Nat) (stack : List α) : List α :=
  stack.drop count

/-- Wrapper `sugar::PopStyleColor`:
`inline void PopStyleColor() { ImGui::PopStyleColor(1); }` (identical in
`ImGuiSugar::PopStyleColor`). -/
def sugarPopStyleColor {α : Type} (stack : List α) : List α :=
  ImGuiPopStyleColor 1 stack

/-- External collaborator (Dear ImGui) style-var stack:
`ImGui::PushStyleVar` pushes one entry. -/
def ImGuiPushStyleVar {α : Type} (v : α) (stack : List α) : List α := v :: stack

/-- External collaborator (Dear ImGui): `ImGui::PopStyleVar(count)` pops
`count` entries off the style-var stack. -/
def ImGuiPopStyleVar {α : Type} (count : Nat) (stack : List α) : List α :=
  stack.drop count

/-- Wrapper `sugar::PopStyleVar`:
`inline void PopStyleVar() { ImGui::PopStyleVar(1); }` (identical in
`ImGuiSugar::PopStyleVar`). -/
def sugarPopStyleVar {α : Type} (stack : List α) : List α :=
  ImGuiPopStyleVar 1 stack

/-- C1: for every self-scoped construct wrapping a boolean begin-function
(`_SUGAR_SCOPED_BOOL` / `IMGUI_SUGAR_SCOPED_BOOL`, either policy), when the
begin-function returns true the guarded body executes exactly once — its whole
event trace appears exactly once, right after the begin-call — and the bound
end-function is invoked exactly once, after the body, on every exit path: the
outcome of the body (normal, early return, or thrown exception) is propagated
unchanged while the end-call is still emitted, and the construct performs
exactly one more end-call for `n` than the body itself does. -/
theorem scopedBool_true_body_once_end_once (n : Nat) (always : Bool) (body : Stmt) :
    run (Stmt.scopedBool n always true body) =
      (Event.beginCall n ::
          (((run body).1 ++ ((run body).2.2).map Event.endCall) ++ [Event.endCall n]),
        (run body).2.1, [])
    ∧ countEnd n (run (Stmt.scopedBool n always true body)).1 =
        countEnd n ((run body).1 ++ ((run body).2.2).map Event.endCall) + 1 := by
  rcases h : run body with ⟨tb, ob, pb⟩
  constructor
  · simp [run, h, guardBoolDestructTrace]
  · simp [run, h, guardBoolDestructTrace, countEnd]
    omega

/-- C2: for a conditional-release guard (`AlwaysCallEnd = false`), a
begin-function returning false skips the body and the destructor performs zero
calls to the end-function: the run emits only the begin-call, the guard
destructor trace is empty, and the trace contains no end-call and no body
execution. -/
theorem scopedBool_conditional_false_skips_body_no_end (n : Nat) (body : Stmt) :
    run (Stmt.scopedBool n false false body) = ([Event.beginCall n], Outcome.normal, [])
    ∧ guardBoolDestructTrace false false n = []
    ∧ countEnd n (run (Stmt.scopedBool n false false body)).1 = 0
    ∧ countBody n (run (Stmt.scopedBool n false false body)).1 = 0 := by
  refine ⟨?_, rfl, ?_, ?_⟩ <;>
    simp [run, guardBoolDestructTrace, countEnd, countBody]

/-- C3: for an always-release guard (`AlwaysCallEnd = true`), a begin-function
returning false skips the body but the destructor still performs exactly one
call to the end-function: the run is begin-call then end-call, with no body
execution. -/
theorem scopedBool_always_false_skips_body_end_once (n : Nat) (body : Stmt) :
    run (Stmt.scopedBool n true false body) =
        ([Event.beginCall n, Event.endCall n], Outcome.normal, [])
    ∧ guardBoolDestructTrace true false n = [Event.endCall n]
    ∧ countEnd n (run (Stmt.scopedBool n true false body)).1 = 1
    ∧ countBody n (run (Stmt.scopedBool n true false body)).1 = 0 := by
  refine ⟨?_, rfl, ?_, ?_⟩ <;>
    simp [run, guardBoolDestructTrace, countEnd, countBody]

/-- C4: the void-state guard `sugar::guard_void`: construction applies the
begin-function exactly once to the forwarded arguments (the state after
construction is one application of `beginFn` to `args`) and discards its
returned value; the implicit boolean conversion is constantly true, so at the
macro level the guarded body of `_SUGAR_SCOPED_VOID_N` always runs; and
destruction applies the end-function exactly once, unconditionally — the run
of a scoped-void construct is begin-call, body (executed once), end-call, with
the outcome of the body propagated. -/
theorem guardVoid_lifecycle {α β σ : Type} (beginFn : α → σ → β × σ) (endFn : σ → σ)
    (args : α) (s s2 : σ) (n : Nat) (body : Stmt) :
    (guard_void.construct beginFn endFn args s).2 = (beginFn args s).2
    ∧ ((guard_void.construct beginFn endFn args s).1).operatorBool = true
    ∧ ((guard_void.construct beginFn endFn args s).1).destruct s2 = endFn s2
    ∧ run (Stmt.scopedVoid n body) =
        (Event.beginCall n ::
            (((run body).1 ++ ((run body).2.2).map Event.endCall) ++ [Event.endCall n]),
          (run body).2.1, []) := by
  rcases h : run body with ⟨tb, ob, pb⟩
  refine ⟨rfl, rfl, rfl, ?_⟩
  simp [run, h, guardVoidDestructTrace]

/-- C5: three nested self-scoped guards acquired in order `a`, `b`, `c` (all
begin-functions returning true, any release policies) release in exactly the
reverse order `c`, `b`, `a`: the trace ends with the three end-calls in that
order, for an arbitrary innermost body whose outcome — including a thrown
exception — is propagated while all three end-calls are still emitted; the
second conjunct instantiates the innermost body with a throw. -/
theorem scopedBool_nested_release_lifo (a b c : Nat) (alwA alwB alwC : Bool) (body : Stmt) :
    run (Stmt.scopedBool a alwA true
          (Stmt.scopedBool b alwB true (Stmt.scopedBool c alwC true body))) =
      (Event.beginCall a :: Event.beginCall b :: Event.beginCall c ::
          (((run body).1 ++ ((run body).2.2).map Event.endCall) ++
            [Event.endCall c, Event.endCall b, Event.endCall a]),
        (run body).2.1, [])
    ∧ run (Stmt.scopedBool a alwA true
          (Stmt.scopedBool b alwB true (Stmt.scopedBool c alwC true Stmt.raiseExc))) =
      ([Event.beginCall a, Event.beginCall b, Event.beginCall c,
          Event.endCall c, Event.endCall b, Event.endCall a],
        Outcome.thrown, []) := by
  rcases h : run body with ⟨tb, ob, pb⟩
  constructor
  · simp [run, h, guardBoolDestructTrace]
  · simp [run, guardBoolDestructTrace]

/-- C6: parent-scoped construct (`set_X`, `_SUGAR_PARENT_SCOPED_VOID_N`): the
begin-function fires at the statement of the construct (first event of the
trace of the block); the construct introduces no new scope — it is a plain declaration, so
the remaining statements of the block run in the same block and their whole
trace follows — and the end-function fires at the close of the enclosing
block, after the traces of all subsequent statements of that block and after
the releases of parent-scoped guards declared later (LIFO), not at the
statement following the construct; this holds for every outcome of the rest of
the block, including unwinding. -/
theorem setVoid_end_fires_at_enclosing_block_close (n : Nat) (rest : Stmt) :
    run (Stmt.block (Stmt.seq (Stmt.setVoid n) rest)) =
      (Event.beginCall n ::
          ((run rest).1 ++ (((run rest).2.2).map Event.endCall ++ [Event.endCall n])),
        (run rest).2.1, []) := by
  rcases h : run rest with ⟨tr, og, pr⟩
  simp [run, h]

/-- C7: overload-sensitive bindings: `set_StyleColor` instantiates its
`guard_void` at the packed-integer type `ImU32` exactly when the trailing
static type of the trailing argument is integral and at `const ImVec4&` otherwise;
the binding set_StyleVar instantiates at `float` exactly when the static
type of the trailing argument is arithmetic and at `const ImVec2&` otherwise. The selection
functions take only the static type of the argument (`std::conditional` over
`std::is_integral` / `std::is_arithmetic`), so the choice involves no runtime
branching. -/
theorem styleColor_styleVar_overload_selection (t : CppType) :
    (setStyleColorArgType t = CppType.tImU32 ↔ is_integral t = true)
    ∧ (setStyleColorArgType t = CppType.tConstImVec4Ref ↔ is_integral t = false)
    ∧ (setStyleVarArgType t = CppType.tFloat ↔ is_arithmetic t = true)
    ∧ (setStyleVarArgType t = CppType.tConstImVec2Ref ↔ is_arithmetic t = false) := by
  cases t <;> decide

/-- C8 counterexample: the claim that every guard instance is non-copyable and
non-movable is false on this code. None of the three guard types declares or
deletes a copy operation, so under the C++11 implicit special-member rules
each remains copy-constructible (the user-declared destructor suppresses only
the implicit move constructor, and move construction falls back to the copy
constructor, so the types are not non-movable either). -/
theorem guards_are_copy_constructible :
    copyConstructible sugarGuardBoolDecl = true
    ∧ copyConstructible sugarGuardVoidDecl = true
    ∧ copyConstructible booleanGuardDecl = true
    ∧ moveConstructibleViaFallback sugarGuardBoolDecl = true := by decide

/-- C8 amended: the guard types do not implicitly declare a move constructor
(their user-declared destructors suppress it), but they are not non-copyable:
no copy operation is deleted, so they remain copy-constructible. Single
release holds per guard instance rather than by a type-system ban: one
destructor run performs at most one end-call (for either guard kind and either
policy), while destroying a guard together with a copy of it performs the
end-call twice — which the DSL macro expansions never do, as they never copy a
guard. -/
theorem guards_release_at_most_once_per_instance :
    (hasImplicitMoveCtor sugarGuardBoolDecl = false
      ∧ hasImplicitMoveCtor sugarGuardVoidDecl = false
      ∧ hasImplicitMoveCtor booleanGuardDecl = false)
    ∧ (copyConstructible sugarGuardBoolDecl = true
      ∧ copyConstructible sugarGuardVoidDecl = true
      ∧ copyConstructible booleanGuardDecl = true)
    ∧ (∀ always st : Bool, ∀ n : Nat, (guardBoolDestructTrace always st n).length ≤ 1)
    ∧ (∀ n : Nat, (guardVoidDestructTrace n).length ≤ 1)
    ∧ (∀ n : Nat,
        countEnd n (guardBoolDestructTrace true true n ++ guardBoolDestructTrace true true n) = 2) := by
  refine ⟨by decide, by decide, ?_, ?_, ?_⟩
  · intro always st n
    cases always <;> cases st <;> simp [guardBoolDestructTrace]
  · intro n
    simp [guardVoidDestructTrace]
  · intro n
    simp [guardBoolDestructTrace, countEnd]

/-- C9: the two implementations of the void-entry self-scoped constructs are
observationally equivalent: for every entry and body, the `guard_void`-based
expansion (`_SUGAR_SCOPED_VOID_N`) and the `BooleanGuard<true>`-based
expansion (`IMGUI_SUGAR_SCOPED_VOID_N`, whose state is the expression
statement that invokes the begin-function and returns true) produce the same
trace — begin-call once, body always executed, end-call exactly once at scope
exit — the same outcome, and the same pending set. -/
theorem scopedVoid_expansions_equivalent (n : Nat) (body : Stmt) :
    runScopedVoidES n body = run (Stmt.scopedVoid n body) := by
  rcases h : run body with ⟨tb, ob, pb⟩
  simp [runScopedVoidES, run, h, guardBoolDestructTrace, guardVoidDestructTrace]

/-- C10: the zero-argument pop wrappers pop exactly one entry:
`sugar::PopStyleColor()` computes `ImGui::PopStyleColor(1)` and
`sugar::PopStyleVar()` computes `ImGui::PopStyleVar(1)` on every stack, and
since the corresponding push adds exactly one entry, the release of a style
construct pops exactly the entry its begin pushed, restoring the stack. -/
theorem pop_wrappers_pop_exactly_one (α : Type) (stack : List α) (c v : α) :
    sugarPopStyleColor stack = ImGuiPopStyleColor 1 stack
    ∧ sugarPopStyleVar stack = ImGuiPopStyleVar 1 stack
    ∧ sugarPopStyleColor (ImGuiPushStyleColor c stack) = stack
    ∧ sugarPopStyleVar (ImGuiPushStyleVar v stack) = stack := by
  refine ⟨rfl, rfl, ?_, ?_⟩ <;>
    simp [sugarPopStyleColor, sugarPopStyleVar, ImGuiPopStyleColor, ImGuiPopStyleVar,
      ImGuiPushStyleColor, ImGuiPushStyleVar]

end ImGuiSugarModel
